import Mathlib

/-!
Shallow embedding of `src/src/dvfile.h`, a reader for the DV/MRC
microscope-stack container format, together with proofs about its header
decoding, dimension inference, coordinate validation and plane addressing.

Modelling conventions:

* File contents and raw buffers are lists of byte values (`Nat`, each `< 256`
  in intended use).  `std::ifstream` is modelled by the byte list plus an
  explicit read position; `read(buf, n)` extracts `min n available` bytes and
  advances the position by the number extracted, exactly as `std::istream`
  does.  Calling `read` past the end of the data sets the stream's fail bit
  in C++ but still returns normally; the model returns the extracted bytes.
* C integer fields are modelled as mathematical integers (`Int`); `int`
  division is truncation toward zero (`Int.tdiv`).  Signed-overflow cases,
  which are undefined behaviour in C++, are outside the model: arithmetic on
  offsets is exact.
* `float` header fields never enter a computation in the source; decoding
  keeps them as their raw 32-bit patterns (`Nat`) assembled in host byte
  order, so the byte-level behaviour is captured without IEEE semantics.
* The `DVFile` constructor fills the header record with `read((char*)&hdr,
  sizeof hdr)`, a raw byte copy: each multi-byte field is assembled from the
  file bytes in the byte order of the HOST, which the model makes explicit as
  a parameter `hostBig`.  The detected `_big_endian` flag is recorded, as in
  the source, and (like the source) the decode itself never consults it.
* `std::unordered_map::operator[]` is modelled by `mapLookupOrInsert`: the
  stored value when the key is present, otherwise the value-initialised
  default `0` is inserted and returned, as in C++.
* `std::map<std::string, int>` enumerates its entries sorted by key, so it is
  modelled as a key-sorted association list with sorted insertion.
* C++ exceptions are modelled with `Except`; for `setCurrentZWT`, where a
  claim is about the state left behind by a throwing call, the operation
  also returns the (unchanged) state explicitly.
-/

/-- Little-endian value of a byte list: the head is the least significant
byte. -/
def leVal (bs : List Nat) : Nat :=
  bs.foldr (fun b acc => b + 256 * acc) 0

/-- Assemble the `n`-byte field stored at byte offset `off` of the raw data
`bs` in host byte order: a little-endian host reads the first byte as least
significant, a big-endian host as most significant. -/
def readU (hostBig : Bool) (bs : List Nat) (off n : Nat) : Nat :=
  let chunk := (bs.drop off).take n
  leVal (if hostBig then chunk.reverse else chunk)

/-- Reinterpret a `w`-bit unsigned value as the twos-complement signed value
of the same bit pattern. -/
def asSigned (w : Nat) (v : Nat) : Int :=
  if v < 2 ^ (w - 1) then (v : Int) else (v : Int) - 2 ^ w

/-- Read an `int32_t` field at byte offset `off` in host byte order. -/
def readI32 (hostBig : Bool) (bs : List Nat) (off : Nat) : Int :=
  asSigned 32 (readU hostBig bs off 4)

/-- Read an `int16_t` field at byte offset `off` in host byte order. -/
def readI16 (hostBig : Bool) (bs : List Nat) (off : Nat) : Int :=
  asSigned 16 (readU hostBig bs off 2)

/-- The global `pixelTypeSizes` registry of `dvfile.h` lines 16-20: the
`PixelType` enumeration values 0..7 paired with `sizeof` of their sample
types.  Keys are the underlying integer values of the `enum class`. -/
def pixelTypeSizes : List (Int × Nat) :=
  [(0, 1), (1, 2), (2, 4), (3, 4), (4, 8), (5, 2), (6, 2), (7, 4)]

/-- Semantics of `std::unordered_map::operator[]`: return the mapped value
and the unchanged map when the key is present; otherwise insert the
value-initialised default `0` and return it. -/
def mapLookupOrInsert (m : List (Int × Nat)) (k : Int) : Nat × List (Int × Nat) :=
  match m.find? (fun p => p.1 == k) with
  | some p => (p.2, m)
  | none => (0, m ++ [(k, 0)])

/-- `getPixelTypeSize` of `dvfile.h` line 22: `pixelTypeSizes[pixelType]`. -/
def getPixelTypeSize (k : Int) : Nat :=
  (mapLookupOrInsert pixelTypeSizes k).1

/-- The `IW_MRC_Header` struct of `dvfile.h` lines 24-48.  Integer fields are
`Int`; the `float` fields hold their raw 32-bit patterns; the two `char`
array fields hold raw bytes.  The struct occupies 1024 bytes with no padding;
byte offsets of the fields are listed with `decodeHeader` below. -/
structure IW_MRC_Header where
  nx : Int := 0
  ny : Int := 0
  nz : Int := 0
  mode : Int := 0
  nxst : Int := 0
  nyst : Int := 0
  nzst : Int := 0
  mx : Int := 0
  my : Int := 0
  mz : Int := 0
  xlen : Nat := 0
  ylen : Nat := 0
  zlen : Nat := 0
  alpha : Nat := 0
  beta : Nat := 0
  gamma : Nat := 0
  mapc : Int := 0
  mapr : Int := 0
  maps : Int := 0
  amin : Nat := 0
  amax : Nat := 0
  amean : Nat := 0
  ispg : Int := 0
  inbsym : Int := 0
  nDVID : Int := 0
  nblank : Int := 0
  ntst : Int := 0
  ibyte : List Nat := []
  nint : Int := 0
  nreal : Int := 0
  nres : Int := 0
  nzfact : Int := 0
  min2 : Nat := 0
  max2 : Nat := 0
  min3 : Nat := 0
  max3 : Nat := 0
  min4 : Nat := 0
  max4 : Nat := 0
  file_type : Int := 0
  lens : Int := 0
  n1 : Int := 0
  n2 : Int := 0
  v1 : Int := 0
  v2 : Int := 0
  min5 : Nat := 0
  max5 : Nat := 0
  num_times : Int := 0
  interleaved : Int := 0
  tilt_x : Nat := 0
  tilt_y : Nat := 0
  tilt_z : Nat := 0
  num_waves : Int := 0
  iwav1 : Int := 0
  iwav2 : Int := 0
  iwav3 : Int := 0
  iwav4 : Int := 0
  iwav5 : Int := 0
  zorig : Nat := 0
  xorig : Nat := 0
  yorig : Nat := 0
  nlab : Int := 0
  label : List Nat := []
deriving DecidableEq

/-- `IW_MRC_Header::sequence_order` (`dvfile.h` lines 50-57): the `switch` on
the `interleaved` code. -/
def IW_MRC_Header.sequence_order (h : IW_MRC_Header) : String :=
  if h.interleaved = 0 then "CTZ"
  else if h.interleaved = 1 then "TZC"
  else if h.interleaved = 2 then "TCZ"
  else "CTZ"

/-- `IW_MRC_Header::num_planes` (`dvfile.h` line 59):
`nz / (num_waves ? num_waves : 1) / (num_times ? num_times : 1)` with C `int`
division, i.e. truncation toward zero. -/
def IW_MRC_Header.num_planes (h : IW_MRC_Header) : Int :=
  Int.tdiv (Int.tdiv h.nz (if h.num_waves = 0 then 1 else h.num_waves))
    (if h.num_times = 0 then 1 else h.num_times)

/-- The full axis string built in `DVFile::sizes` (`dvfile.h` line 198):
`hdr.sequence_order() + "YX"`. -/
def IW_MRC_Header.axesString (h : IW_MRC_Header) : String :=
  h.sequence_order ++ "YX"

/-- Decode the fixed 1024-byte header from raw file bytes exactly as the raw
struct read of `dvfile.h` line 136 does: every field is assembled from the
bytes at its struct offset in HOST byte order (`hostBig`); the detected file
byte order plays no part.  Offsets follow the struct layout: nx 0, ny 4,
nz 8, mode 12, nxst 16, nyst 20, nzst 24, mx 28, my 32, mz 36, xlen 40,
ylen 44, zlen 48, alpha 52, beta 56, gamma 60, mapc 64, mapr 68, maps 72,
amin 76, amax 80, amean 84, ispg 88, inbsym 92, nDVID 96, nblank 98,
ntst 100, ibyte 104 (24 bytes), nint 128, nreal 130, nres 132, nzfact 134,
min2 136, max2 140, min3 144, max3 148, min4 152, max4 156, file_type 160,
lens 162, n1 164, n2 166, v1 168, v2 170, min5 172, max5 176, num_times 180,
interleaved 182, tilt_x 184, tilt_y 188, tilt_z 192, num_waves 196,
iwav1 198, iwav2 200, iwav3 202, iwav4 204, iwav5 206, zorig 208, xorig 212,
yorig 216, nlab 220, label 224 (800 bytes). -/
def decodeHeader (hostBig : Bool) (bs : List Nat) : IW_MRC_Header :=
  { nx := readI32 hostBig bs 0
    ny := readI32 hostBig bs 4
    nz := readI32 hostBig bs 8
    mode := readI32 hostBig bs 12
    nxst := readI32 hostBig bs 16
    nyst := readI32 hostBig bs 20
    nzst := readI32 hostBig bs 24
    mx := readI32 hostBig bs 28
    my := readI32 hostBig bs 32
    mz := readI32 hostBig bs 36
    xlen := readU hostBig bs 40 4
    ylen := readU hostBig bs 44 4
    zlen := readU hostBig bs 48 4
    alpha := readU hostBig bs 52 4
    beta := readU hostBig bs 56 4
    gamma := readU hostBig bs 60 4
    mapc := readI32 hostBig bs 64
    mapr := readI32 hostBig bs 68
    maps := readI32 hostBig bs 72
    amin := readU hostBig bs 76 4
    amax := readU hostBig bs 80 4
    amean := readU hostBig bs 84 4
    ispg := readI32 hostBig bs 88
    inbsym := readI32 hostBig bs 92
    nDVID := readI16 hostBig bs 96
    nblank := readI16 hostBig bs 98
    ntst := readI32 hostBig bs 100
    ibyte := (bs.drop 104).take 24
    nint := readI16 hostBig bs 128
    nreal := readI16 hostBig bs 130
    nres := readI16 hostBig bs 132
    nzfact := readI16 hostBig bs 134
    min2 := readU hostBig bs 136 4
    max2 := readU hostBig bs 140 4
    min3 := readU hostBig bs 144 4
    max3 := readU hostBig bs 148 4
    min4 := readU hostBig bs 152 4
    max4 := readU hostBig bs 156 4
    file_type := readI16 hostBig bs 160
    lens := readI16 hostBig bs 162
    n1 := readI16 hostBig bs 164
    n2 := readI16 hostBig bs 166
    v1 := readI16 hostBig bs 168
    v2 := readI16 hostBig bs 170
    min5 := readU hostBig bs 172 4
    max5 := readU hostBig bs 176 4
    num_times := readI16 hostBig bs 180
    interleaved := readI16 hostBig bs 182
    tilt_x := readU hostBig bs 184 4
    tilt_y := readU hostBig bs 188 4
    tilt_z := readU hostBig bs 192 4
    num_waves := readI16 hostBig bs 196
    iwav1 := readI16 hostBig bs 198
    iwav2 := readI16 hostBig bs 200
    iwav3 := readI16 hostBig bs 202
    iwav4 := readI16 hostBig bs 204
    iwav5 := readI16 hostBig bs 206
    zorig := readU hostBig bs 208 4
    xorig := readU hostBig bs 212 4
    yorig := readU hostBig bs 216 4
    nlab := readI32 hostBig bs 220
    label := (bs.drop 224).take 800 }

/-- The `DVFile` class state (`dvfile.h` lines 94-100): the owned stream
(byte list plus read position), path is omitted, the detected `_big_endian`
flag, the header record, and the `closed` flag. -/
structure DVFile where
  bytes : List Nat
  pos : Int
  big_endian : Bool
  hdr : IW_MRC_Header
  closed : Bool
deriving DecidableEq

/-- The `DVFile` constructor (`dvfile.h` lines 115-138): seek to byte 96
(`24 * 4`), read the 2-byte marker, classify the byte order, and on success
rewind and copy the raw 1024 header bytes into the header record (assembled
in host order `hostBig`).  A file too short to supply the 2 marker bytes
leaves the marker buffer indeterminate in C++; such files are modelled as
failing the marker comparison.  After the header read the stream position is
the number of header bytes extracted. -/
def DVFile.openFile (hostBig : Bool) (bytes : List Nat) : Except String DVFile :=
  match bytes[96]?, bytes[97]? with
  | some b0, some b1 =>
    if b0 = 0xA0 ∧ b1 = 0xC0 then
      .ok { bytes := bytes, pos := ((min 1024 bytes.length : Nat) : Int),
            big_endian := false, hdr := decodeHeader hostBig bytes, closed := false }
    else if b0 = 0xC0 ∧ b1 = 0xA0 then
      .ok { bytes := bytes, pos := ((min 1024 bytes.length : Nat) : Int),
            big_endian := true, hdr := decodeHeader hostBig bytes, closed := false }
    else
      .error "is not a recognized DV file"
  | _, _ => .error "is not a recognized DV file"

/-- `DVFile::_validateZWT` (`dvfile.h` lines 102-112): reject `t`, then `w`,
then `z` at or above their extents, each with its own error message. -/
def _validateZWT (hdr : IW_MRC_Header) (z w t : Int) : Except String Unit :=
  if t ≥ hdr.num_times then .error "Time index out of range"
  else if w ≥ hdr.num_waves then .error "Wavelength index out of range"
  else if z ≥ hdr.num_planes then .error "Section index out of range"
  else .ok ()

/-- `DVFile::getPixelSize` (`dvfile.h` line 163):
`getPixelTypeSize(static_cast<PixelType>(hdr.mode))`. -/
def DVFile.getPixelSize (dv : DVFile) : Nat :=
  getPixelTypeSize dv.hdr.mode

/-- `DVFile::setCurrentZWT` (`dvfile.h` lines 141-148).  The validation call
can throw; the throw happens before any other statement, so on error the
returned state is the input state.  On success the seek target is
`1024 + inbsym + (t * num_waves * num_planes + w * num_planes + z) *
(ny * nx * pixelSize)`. -/
def DVFile.setCurrentZWT (dv : DVFile) (z w t : Int) : DVFile × Option String :=
  match _validateZWT dv.hdr z w t with
  | .error e => (dv, some e)
  | .ok _ =>
    let frame_size : Int := dv.hdr.ny * dv.hdr.nx * (dv.getPixelSize : Int)
    let header_size : Int := 1024 + dv.hdr.inbsym
    let section_offset : Int :=
      t * dv.hdr.num_waves * dv.hdr.num_planes + w * dv.hdr.num_planes + z
    ({ dv with pos := header_size + section_offset * frame_size }, none)

/-- `DVFile::readSec(void*)` (`dvfile.h` lines 150-156): error on a closed
file, otherwise perform the raw stream read of `ny * nx * pixelSize` bytes
from the current position.  The stream read extracts as many bytes as are
available up to the request and advances the position by that number; no
check of the extracted count is made.  The `.toNat` clamp corresponds to the
`size_t` request for the non-negative extents the format intends; negative
products (undefined or wrapping in C++) are outside the model. -/
def DVFile.readSec (dv : DVFile) : Except String (List Nat × DVFile) :=
  if dv.closed then
    .error "Cannot read from closed file. Please reopen with .open()"
  else
    let frame_size : Nat := (dv.hdr.ny * dv.hdr.nx * (dv.getPixelSize : Int)).toNat
    let data := (dv.bytes.drop dv.pos.toNat).take frame_size
    .ok (data, { dv with pos := dv.pos + data.length })

/-- `DVFile::readSec(void*, int t, int w, int z)` (`dvfile.h` lines 158-161):
`setCurrentZWT(z, w, t)` followed by the sequential read; a validation throw
propagates. -/
def DVFile.readSecAt (dv : DVFile) (t w z : Int) : Except String (List Nat × DVFile) :=
  match dv.setCurrentZWT z w t with
  | (_, some e) => .error e
  | (dv2, none) => dv2.readSec

/-- Lexicographic strict order on character lists by code point, the
comparison `std::map<std::string, int>` uses on its `std::string` keys. -/
def charListLt (a b : List Char) : Bool :=
  match a, b with
  | _, [] => false
  | [], _ :: _ => true
  | c :: a2, d :: b2 =>
    if c.toNat < d.toNat then true
    else if d.toNat < c.toNat then false
    else charListLt a2 b2

/-- Sorted insertion into a `std::map<std::string, int>` modelled as a
key-sorted association list: `m[k] = v` replaces the value when the key is
present and otherwise places the new entry at its sorted position. -/
def smapInsert (m : List (String × Int)) (k : String) (v : Int) : List (String × Int) :=
  match m with
  | [] => [(k, v)]
  | (k2, v2) :: rest =>
    if charListLt k.data k2.data then (k, v) :: (k2, v2) :: rest
    else if k = k2 then (k, v) :: rest
    else (k2, v2) :: smapInsert rest k v

/-- `DVFile::sizes` (`dvfile.h` lines 190-205).  `num_real_z` repeats the
`num_planes` computation inline; `d` is the five-entry initializer-list map
(every key later looked up is one of the five, so `operator[]` is a plain
lookup); the result map is built by inserting `axes`-ordered entries into a
`std::map`, which keeps its entries sorted by key. -/
def DVFile.sizes (dv : DVFile) : List (String × Int) :=
  let num_real_z : Int :=
    Int.tdiv (Int.tdiv dv.hdr.nz (if dv.hdr.num_waves = 0 then 1 else dv.hdr.num_waves))
      (if dv.hdr.num_times = 0 then 1 else dv.hdr.num_times)
  let d : String → Int := fun k =>
    if k = "T" then dv.hdr.num_times
    else if k = "C" then dv.hdr.num_waves
    else if k = "Z" then num_real_z
    else if k = "Y" then dv.hdr.ny
    else if k = "X" then dv.hdr.nx
    else 0
  let axes : List Char := dv.hdr.axesString.toList
  axes.foldl (fun m c => smapInsert m (String.mk [c]) (d (String.mk [c]))) []

/-- The handle table `dvfile_map` (`dvfile.h` line 213) as an association
list from stream id to open reader state; lookup by first match. -/
def tableFind? (m : List (Int × DVFile)) (k : Int) : Option DVFile :=
  (m.find? (fun p => p.1 == k)).map Prod.snd

/-- `dvfile_map.erase(istream)`: drop every entry with the given key. -/
def tableErase (m : List (Int × DVFile)) (k : Int) : List (Int × DVFile) :=
  m.filter (fun p => decide (p.1 ≠ k))

/-- `dvfile_map[istream] = dv` after the erase step: the key is absent, so
`operator[]` inserts the new entry. -/
def tableInsert (m : List (Int × DVFile)) (k : Int) (v : DVFile) : List (Int × DVFile) :=
  m ++ [(k, v)]

/-- `IMOpen` (`dvfile.h` lines 224-245).  A handle in use is closed and
erased first.  For mode `"ro"` the constructor runs; in C++17 the right side
of `dvfile_map[istream] = std::make_unique<DVFile>(name)` is sequenced
before the `operator[]` call, so a constructor throw leaves the table
without an entry for `istream` and `IMOpen` returns `-1`.  Any other mode
returns `-1`.  The opened file's content stands in for its name. -/
def IMOpen (hostBig : Bool) (table : List (Int × DVFile)) (istream : Int)
    (fileBytes : List Nat) (attrib : String) : Int × List (Int × DVFile) :=
  let table1 := if (tableFind? table istream).isSome then tableErase table istream else table
  if attrib = "ro" then
    match DVFile.openFile hostBig fileBytes with
    | .ok dv => (0, tableInsert table1 istream dv)
    | .error _ => (-1, table1)
  else (-1, table1)

/-- Example header mirroring the repository test file `example.dv`:
32 x 32 pixels, 18 total sections, 3 waves, 2 time points, pixel type 6
(16-bit unsigned), no extended header, interleave code 0. -/
def hdrEx : IW_MRC_Header :=
  { nx := 32, ny := 32, nz := 18, mode := 6, inbsym := 0,
    num_times := 2, interleaved := 0, num_waves := 3 }

/-- Example open reader on `hdrEx`, positioned just past the fixed header. -/
def dvEx : DVFile :=
  { bytes := [], pos := 1024, big_endian := false, hdr := hdrEx, closed := false }

/-- Example open reader whose source yields only 10 bytes of plane data
from the current read position, far fewer than one 2048-byte plane. -/
def dvShort : DVFile :=
  { bytes := List.replicate 10 7, pos := 0, big_endian := false,
    hdr := hdrEx, closed := false }

/-- A 98-byte file carrying the big-endian marker `C0 A0` at offset 96 and
whose `nx` field is stored big-endian as `00 00 00 01`, i.e. logical
`nx = 1` under the file's declared byte order. -/
def beFileEx : List Nat :=
  [0, 0, 0, 1] ++ List.replicate 92 0 ++ [0xC0, 0xA0]

/-- A 98-byte file carrying the little-endian marker `A0 C0` at offset 96
and whose `nx` field is stored little-endian as `01 00 00 00`, i.e. logical
`nx = 1` under the file's declared byte order. -/
def leFileEx : List Nat :=
  [1, 0, 0, 0] ++ List.replicate 92 0 ++ [0xA0, 0xC0]

/-- A 98-byte file whose marker bytes are `00 00`: not a DV file. -/
def badFileEx : List Nat :=
  List.replicate 98 0

/-- Helper: after erasing a stream id from the handle table, lookup of that
id finds nothing. -/
theorem tableFind?_erase (m : List (Int × DVFile)) (k : Int) :
    tableFind? (tableErase m k) k = none := by
  induction m with
  | nil => rfl
  | cons p rest ih =>
    by_cases h : p.1 = k
    · have h2 : (decide (p.1 ≠ k)) = false := by simp [h]
      simp only [tableErase, List.filter_cons, h2, Bool.false_eq_true, if_false]
      exact ih
    · have h2 : (decide (p.1 ≠ k)) = true := by simp [h]
      have h3 : (p.1 == k) = false := by simp [h]
      simp only [tableErase, List.filter_cons, h2, if_true, tableFind?, List.find?, h3]
      exact ih

/-- Helper: on a validated triple, `setCurrentZWT` reduces to the seek with
the source's offset expression and no error. -/
theorem setCurrentZWT_ok (dv : DVFile) (z w t : Int)
    (hv : _validateZWT dv.hdr z w t = .ok ()) :
    dv.setCurrentZWT z w t =
      ({ dv with pos := 1024 + dv.hdr.inbsym
          + (t * dv.hdr.num_waves * dv.hdr.num_planes
              + w * dv.hdr.num_planes + z)
            * (dv.hdr.ny * dv.hdr.nx * (dv.getPixelSize : Int)) }, none) := by
  unfold DVFile.setCurrentZWT
  rw [hv]

/-- C1: for every open file and every coordinate triple that passes
validation, `setCurrentZWT` raises no error and seeks to byte offset
`1024 + inbsym + (t * num_waves * num_planes + w * num_planes + z) *
(nx * ny * pixelSize)`, and the resulting position is unchanged by replacing
the header's interleave code with any other value. -/
theorem C1_positioned_offset (dv : DVFile) (z w t : Int)
    (hv : _validateZWT dv.hdr z w t = .ok ()) :
    (dv.setCurrentZWT z w t).2 = none
    ∧ (dv.setCurrentZWT z w t).1.pos =
        1024 + dv.hdr.inbsym
          + (t * dv.hdr.num_waves * dv.hdr.num_planes
              + w * dv.hdr.num_planes + z)
            * (dv.hdr.nx * dv.hdr.ny * (dv.getPixelSize : Int))
    ∧ ∀ i : Int,
        (({ dv with hdr := { dv.hdr with interleaved := i } }).setCurrentZWT z w t).1.pos
          = (dv.setCurrentZWT z w t).1.pos := by
  have hs := setCurrentZWT_ok dv z w t hv
  refine ⟨by rw [hs], ?_, ?_⟩
  · rw [hs]
    show 1024 + dv.hdr.inbsym
        + (t * dv.hdr.num_waves * dv.hdr.num_planes
            + w * dv.hdr.num_planes + z)
          * (dv.hdr.ny * dv.hdr.nx * (dv.getPixelSize : Int)) = _
    ring
  · intro i
    have hv2 : _validateZWT ({ dv with hdr := { dv.hdr with interleaved := i } } : DVFile).hdr z w t
        = .ok () := hv
    rw [hs, setCurrentZWT_ok _ z w t hv2]
    rfl

/-- Witness for C1 at the example reader and the triple
`(z, w, t) = (0, 0, 1)`. -/
theorem C1_positioned_offset_witness :
    (dvEx.setCurrentZWT 0 0 1).2 = none
    ∧ (dvEx.setCurrentZWT 0 0 1).1.pos =
        1024 + dvEx.hdr.inbsym
          + (1 * dvEx.hdr.num_waves * dvEx.hdr.num_planes
              + 0 * dvEx.hdr.num_planes + 0)
            * (dvEx.hdr.nx * dvEx.hdr.ny * (dvEx.getPixelSize : Int)) := by
  have h := C1_positioned_offset dvEx 0 0 1 (by rfl)
  exact ⟨h.1, h.2.1⟩

/-- C2 evaluation: the open-time decode does NOT interpret fields in the
detected byte order.  `beFileEx` stores `nx = 1` big-endian and `leFileEx`
stores `nx = 1` little-endian; the decode assembles fields in the one fixed
host order (it never consults the detected `_big_endian` flag), so whichever
order the host has, one of the two files decodes `nx` to `16777216` instead
of `1`: on a little-endian host the big-endian file is misread, and on a
big-endian host the little-endian file is misread. -/
theorem C2_hostorder_decode_eval :
    (match DVFile.openFile false beFileEx with
      | .ok dv => dv.hdr.nx
      | .error _ => 0) = 16777216
    ∧ (match DVFile.openFile true leFileEx with
      | .ok dv => dv.hdr.nx
      | .error _ => 0) = 16777216
    ∧ (match DVFile.openFile false beFileEx with
      | .ok dv => dv.big_endian
      | .error _ => false) = true
    ∧ (match DVFile.openFile true leFileEx with
      | .ok dv => dv.big_endian
      | .error _ => true) = false := by
  refine ⟨rfl, rfl, rfl, rfl⟩

/-- C3: opening inspects the 2 bytes at offset 96 and nothing else of the
marker region: `A0 C0` opens little-endian, `C0 A0` opens big-endian, and
any other pair fails the constructor with the not-recognized error, in which
case `IMOpen` returns `-1` and the handle table holds no entry for the
stream id afterwards. -/
theorem C3_marker_detection (hostBig : Bool) (table : List (Int × DVFile))
    (istream : Int) (bytes : List Nat) (b0 b1 : Nat)
    (h96 : bytes[96]? = some b0) (h97 : bytes[97]? = some b1) :
    ((b0 = 0xA0 ∧ b1 = 0xC0) →
        ∃ dv, DVFile.openFile hostBig bytes = .ok dv ∧ dv.big_endian = false)
    ∧ ((b0 = 0xC0 ∧ b1 = 0xA0) →
        ∃ dv, DVFile.openFile hostBig bytes = .ok dv ∧ dv.big_endian = true)
    ∧ (¬(b0 = 0xA0 ∧ b1 = 0xC0) → ¬(b0 = 0xC0 ∧ b1 = 0xA0) →
        DVFile.openFile hostBig bytes = .error "is not a recognized DV file"
        ∧ (IMOpen hostBig table istream bytes "ro").1 = -1
        ∧ tableFind? (IMOpen hostBig table istream bytes "ro").2 istream = none) := by
  refine ⟨?_, ?_, ?_⟩
  · rintro ⟨rfl, rfl⟩
    refine ⟨{ bytes := bytes, pos := ((min 1024 bytes.length : Nat) : Int),
              big_endian := false, hdr := decodeHeader hostBig bytes, closed := false },
            ?_, rfl⟩
    simp [DVFile.openFile, h96, h97]
  · rintro ⟨rfl, rfl⟩
    refine ⟨{ bytes := bytes, pos := ((min 1024 bytes.length : Nat) : Int),
              big_endian := true, hdr := decodeHeader hostBig bytes, closed := false },
            ?_, rfl⟩
    simp [DVFile.openFile, h96, h97]
  · intro hn1 hn2
    have hop : DVFile.openFile hostBig bytes = .error "is not a recognized DV file" := by
      simp [DVFile.openFile, h96, h97, hn1, hn2]
    refine ⟨hop, ?_, ?_⟩
    · simp [IMOpen, hop]
    · by_cases hs : (tableFind? table istream).isSome
      · simp [IMOpen, hop, hs, tableFind?_erase]
      · simp only [IMOpen, hop, hs]
        simpa using Option.not_isSome_iff_eq_none.mp hs

/-- Witness for C3: the little-endian marker opens with `_big_endian` false,
the big-endian marker opens with it true, and the all-zero marker fails,
returns `-1` from `IMOpen` and leaves no table entry for stream 1. -/
theorem C3_marker_detection_witness :
    (∃ dv, DVFile.openFile false leFileEx = .ok dv ∧ dv.big_endian = false)
    ∧ (∃ dv, DVFile.openFile false beFileEx = .ok dv ∧ dv.big_endian = true)
    ∧ (DVFile.openFile false badFileEx = .error "is not a recognized DV file"
        ∧ (IMOpen false [] 1 badFileEx "ro").1 = -1
        ∧ tableFind? (IMOpen false [] 1 badFileEx "ro").2 1 = none) := by
  refine ⟨(C3_marker_detection false [] 1 leFileEx 0xA0 0xC0 rfl rfl).1 ⟨rfl, rfl⟩,
          (C3_marker_detection false [] 1 beFileEx 0xC0 0xA0 rfl rfl).2.1 ⟨rfl, rfl⟩,
          (C3_marker_detection false [] 1 badFileEx 0 0 rfl rfl).2.2
            (by decide) (by decide)⟩

/-- C4: validation fails exactly when some coordinate reaches its extent,
the checks run time first, then wave, then section, each naming its axis in
the error, and every triple with all coordinates strictly below the extents
is accepted. -/
theorem C4_validation_ranges (hdr : IW_MRC_Header) (z w t : Int) :
    (_validateZWT hdr z w t = .ok ()
        ↔ t < hdr.num_times ∧ w < hdr.num_waves ∧ z < hdr.num_planes)
    ∧ (t ≥ hdr.num_times → _validateZWT hdr z w t = .error "Time index out of range")
    ∧ (t < hdr.num_times → w ≥ hdr.num_waves →
        _validateZWT hdr z w t = .error "Wavelength index out of range")
    ∧ (t < hdr.num_times → w < hdr.num_waves → z ≥ hdr.num_planes →
        _validateZWT hdr z w t = .error "Section index out of range") := by
  unfold _validateZWT
  split_ifs with h1 h2 h3 <;>
    refine ⟨?_, ?_, ?_, ?_⟩ <;> simp_all

/-- Witness for C4: each rejection axis and an accepted triple on the
example header with extents `timeCount = 2`, `waveCount = 3`,
`realZCount = 3`. -/
theorem C4_validation_ranges_witness :
    _validateZWT hdrEx 0 0 5 = .error "Time index out of range"
    ∧ _validateZWT hdrEx 0 5 0 = .error "Wavelength index out of range"
    ∧ _validateZWT hdrEx 5 0 0 = .error "Section index out of range"
    ∧ _validateZWT hdrEx 2 2 1 = .ok () := by
  refine ⟨(C4_validation_ranges hdrEx 0 0 5).2.1 (by decide),
          (C4_validation_ranges hdrEx 0 5 0).2.2.1 (by decide) (by decide),
          (C4_validation_ranges hdrEx 5 0 0).2.2.2 (by decide) (by decide) (by decide),
          (C4_validation_ranges hdrEx 2 2 1).1.mpr (by decide)⟩

/-- C5: for non-negative section, wave and time counts, `num_planes` is
`nz / max(num_waves, 1) / max(num_times, 1)` with integer division; a zero
wave or time count acts as 1 and the computation is total. -/
theorem C5_real_z_count (h : IW_MRC_Header)
    (h1 : 0 ≤ h.nz) (h2 : 0 ≤ h.num_waves) (h3 : 0 ≤ h.num_times) :
    h.num_planes = h.nz / max h.num_waves 1 / max h.num_times 1 := by
  unfold IW_MRC_Header.num_planes
  have hw : (if h.num_waves = 0 then 1 else h.num_waves) = max h.num_waves 1 := by
    split_ifs with h0 <;> omega
  have ht : (if h.num_times = 0 then 1 else h.num_times) = max h.num_times 1 := by
    split_ifs with h0 <;> omega
  have hw1 : (0 : Int) ≤ max h.num_waves 1 := le_trans zero_le_one (le_max_right _ _)
  have ht1 : (0 : Int) ≤ max h.num_times 1 := le_trans zero_le_one (le_max_right _ _)
  rw [hw, ht, Int.tdiv_eq_ediv h1 hw1, Int.tdiv_eq_ediv (Int.ediv_nonneg h1 hw1) ht1]

/-- Witness for C5 at the example header: `18 / max(3,1) / max(2,1) = 3`,
and at a header with zero wave and time counts: `18 / 1 / 1 = 18`. -/
theorem C5_real_z_count_witness :
    (hdrEx.num_planes = hdrEx.nz / max hdrEx.num_waves 1 / max hdrEx.num_times 1
      ∧ hdrEx.num_planes = 3)
    ∧ (({ hdrEx with num_waves := 0, num_times := 0 } : IW_MRC_Header).num_planes
        = ({ hdrEx with num_waves := 0, num_times := 0 } : IW_MRC_Header).nz
            / max ({ hdrEx with num_waves := 0, num_times := 0 } : IW_MRC_Header).num_waves 1
            / max ({ hdrEx with num_waves := 0, num_times := 0 } : IW_MRC_Header).num_times 1
      ∧ ({ hdrEx with num_waves := 0, num_times := 0 } : IW_MRC_Header).num_planes = 18) :=
  ⟨⟨C5_real_z_count hdrEx (by decide) (by decide) (by decide), by decide⟩,
   ⟨C5_real_z_count { hdrEx with num_waves := 0, num_times := 0 }
      (by decide) (by decide) (by decide), by decide⟩⟩

/-- C6 evaluation: on the example reader (interleave code 0, so the axis
string is `CTZYX`), `sizes` carries the correct five extents but its
enumeration order is the lexicographic key order `C, T, X, Y, Z` of the
`std::map`, not the axis-order sequence `C, T, Z, Y, X`; the insertion loop
over the axis string cannot impose its order on a key-sorted map. -/
theorem C6_sizes_enumeration_eval :
    (dvEx.sizes).map Prod.fst = ["C", "T", "X", "Y", "Z"]
    ∧ dvEx.hdr.axesString = "CTZYX"
    ∧ (dvEx.sizes).map Prod.fst ≠ ["C", "T", "Z", "Y", "X"]
    ∧ dvEx.sizes = [("C", 3), ("T", 2), ("X", 32), ("Y", 32), ("Z", 3)] := by
  refine ⟨by decide, by decide, by decide, by decide⟩

/-- C7 counterexample: `dvShort` is open, one plane needs 2048 bytes, the
source holds only 10 bytes past the current position, yet `readSec` returns
normally with the 10-byte partial buffer instead of failing. -/
theorem C7_short_read_counterexample :
    dvShort.closed = false
    ∧ (dvShort.hdr.ny * dvShort.hdr.nx * (dvShort.getPixelSize : Int)).toNat = 2048
    ∧ dvShort.bytes.length - dvShort.pos.toNat = 10
    ∧ dvShort.readSec = .ok (List.replicate 10 7, { dvShort with pos := 10 }) := by
  refine ⟨rfl, rfl, rfl, rfl⟩

/-- C7 amended: a plane read on an open handle always returns normally,
delivering `min planeByteSize available` bytes — a short source is silently
tolerated, the partial buffer is handed back and the position advances by
the bytes actually extracted; the only error `readSec` raises is the
closed-handle error. -/
theorem C7_short_read_amended (dv : DVFile) :
    (dv.closed = false →
      ∃ data dv2, dv.readSec = .ok (data, dv2)
        ∧ data.length =
            min ((dv.hdr.ny * dv.hdr.nx * (dv.getPixelSize : Int)).toNat)
              (dv.bytes.length - dv.pos.toNat)
        ∧ dv2.pos = dv.pos + data.length)
    ∧ (dv.closed = true →
      dv.readSec = .error "Cannot read from closed file. Please reopen with .open()") := by
  constructor
  · intro hc
    unfold DVFile.readSec
    rw [if_neg (by simp [hc])]
    exact ⟨_, _, rfl, by simp, rfl⟩
  · intro hc
    unfold DVFile.readSec
    rw [if_pos (by simp [hc])]

/-- Witness for C7 amended at the truncated example reader: the read
succeeds and returns `min 2048 10 = 10` bytes. -/
theorem C7_short_read_amended_witness :
    ∃ data dv2, dvShort.readSec = .ok (data, dv2)
      ∧ data.length =
          min ((dvShort.hdr.ny * dvShort.hdr.nx * (dvShort.getPixelSize : Int)).toNat)
            (dvShort.bytes.length - dvShort.pos.toNat)
      ∧ dv2.pos = dvShort.pos + data.length :=
  (C7_short_read_amended dvShort).1 rfl

/-- C8: the full axis string is `CTZYX` for interleave code 0, `TZCYX` for
code 1, `TCZYX` for code 2, and `CTZYX` for every other stored code. -/
theorem C8_axis_order (h : IW_MRC_Header) :
    (h.interleaved = 0 → h.axesString = "CTZYX")
    ∧ (h.interleaved = 1 → h.axesString = "TZCYX")
    ∧ (h.interleaved = 2 → h.axesString = "TCZYX")
    ∧ (h.interleaved ≠ 0 → h.interleaved ≠ 1 → h.interleaved ≠ 2 →
        h.axesString = "CTZYX") := by
  unfold IW_MRC_Header.axesString IW_MRC_Header.sequence_order
  refine ⟨?_, ?_, ?_, ?_⟩
  · intro h0
    rw [h0]
    decide
  · intro h1
    rw [h1]
    decide
  · intro h2
    rw [h2]
    decide
  · intro h0 h1 h2
    rw [if_neg h0, if_neg h1, if_neg h2]
    decide

/-- Witness for C8 at interleave codes 0, 1, 2 and the out-of-range code 7. -/
theorem C8_axis_order_witness :
    hdrEx.axesString = "CTZYX"
    ∧ ({ hdrEx with interleaved := 1 } : IW_MRC_Header).axesString = "TZCYX"
    ∧ ({ hdrEx with interleaved := 2 } : IW_MRC_Header).axesString = "TCZYX"
    ∧ ({ hdrEx with interleaved := 7 } : IW_MRC_Header).axesString = "CTZYX" :=
  ⟨(C8_axis_order hdrEx).1 rfl,
   (C8_axis_order { hdrEx with interleaved := 1 }).2.1 rfl,
   (C8_axis_order { hdrEx with interleaved := 2 }).2.2.1 rfl,
   (C8_axis_order { hdrEx with interleaved := 7 }).2.2.2
     (by decide) (by decide) (by decide)⟩

/-- C9: the pixel-size lookup hits a stored entry for each of the 8 defined
codes, returning the byte widths 1, 2, 4, 4, 8, 2, 2, 4 and leaving the
registry exactly as it was; no error path exists. -/
theorem C9_pixel_registry_total :
    mapLookupOrInsert pixelTypeSizes 0 = (1, pixelTypeSizes)
    ∧ mapLookupOrInsert pixelTypeSizes 1 = (2, pixelTypeSizes)
    ∧ mapLookupOrInsert pixelTypeSizes 2 = (4, pixelTypeSizes)
    ∧ mapLookupOrInsert pixelTypeSizes 3 = (4, pixelTypeSizes)
    ∧ mapLookupOrInsert pixelTypeSizes 4 = (8, pixelTypeSizes)
    ∧ mapLookupOrInsert pixelTypeSizes 5 = (2, pixelTypeSizes)
    ∧ mapLookupOrInsert pixelTypeSizes 6 = (2, pixelTypeSizes)
    ∧ mapLookupOrInsert pixelTypeSizes 7 = (4, pixelTypeSizes) := by
  decide

/-- C10: when validation rejects a triple, `setCurrentZWT` raises the
out-of-range error before the seek, so the returned state — position
included — is exactly the input state. -/
theorem C10_position_atomic_on_error (dv : DVFile) (z w t : Int) (e : String)
    (he : _validateZWT dv.hdr z w t = .error e) :
    dv.setCurrentZWT z w t = (dv, some e) := by
  unfold DVFile.setCurrentZWT
  rw [he]

/-- Witness for C10: the rejected triple `(z, w, t) = (0, 0, 5)` on the
example reader leaves the state untouched and reports the time axis. -/
theorem C10_position_atomic_on_error_witness :
    dvEx.setCurrentZWT 0 0 5 = (dvEx, some "Time index out of range") :=
  C10_position_atomic_on_error dvEx 0 0 5 "Time index out of range" rfl
